import Mathlib

/-!
Verification of the three-stage document pipeline (preprocess, GPU process,
postprocess) and its integration-test harness.  Each Python source function is
shallowly embedded as an executable Lean definition: the marker transforms are
pure string functions, the per-directory file loops are structural recursions
over directory listings, and the stage entry points are state-passing functions
over an abstract world (environment variables, object storage, local
filesystem, GPU availability).  Effects are recorded as explicit event traces.
-/

namespace Pipeline

/-! ## Basic string lemmas used throughout -/

theorem strData_append (a b : String) : (a ++ b).data = a.data ++ b.data := by
  cases a; cases b; rfl

theorem strData_empty : ("" : String).data = [] := rfl

theorem strExt (a b : String) (h : a.data = b.data) : a = b := by
  cases a; cases b; exact congrArg String.mk h

theorem strAppend_assoc (a b c : String) : a ++ b ++ c = a ++ (b ++ c) := by
  apply strExt
  simp [strData_append, List.append_assoc]

/-! ## Marker transforms

Embedded from the f-string expressions in the three stage scripts:
`preprocess.py` line 75, `process.py` line 72, `postprocess.py` line 65.
The timestamp (`time.strftime(...)`) and the GPU device name are parameters.
-/

/-- `preprocess.py`: prepend the preprocessing marker line to the content. -/
def preprocessTransform (ts content : String) : String :=
  "[Preprocessed at " ++ ts ++ "]\n" ++ content

/-- `process.py`: append the GPU-processing marker line to the content. -/
def gpuTransform (deviceName ts content : String) : String :=
  content ++ "\n[GPU Processed with " ++ deviceName ++ " at " ++ ts ++ "]"

/-- `postprocess.py`: append the postprocessing marker line to the content. -/
def postprocessTransform (ts content : String) : String :=
  content ++ "\n[Postprocessed at " ++ ts ++ "]"

/-- C1: composing the three stage transforms, with any timestamps and any GPU
device name, yields a string that contains the substrings `[Preprocessed at`,
`[GPU Processed with` and `[Postprocessed at`, in that stage order (witnessed
by an explicit decomposition of the result around the three markers). -/
theorem C1_pipeline_markers_in_order (c ts1 ts2 ts3 dev : String) :
    ∃ a b d e : String,
      postprocessTransform ts3 (gpuTransform dev ts2 (preprocessTransform ts1 c)) =
        a ++ "[Preprocessed at" ++ b ++ "[GPU Processed with" ++ d ++
          "[Postprocessed at" ++ e := by
  refine ⟨"", " " ++ ts1 ++ "]\n" ++ c ++ "\n",
    " " ++ dev ++ " at " ++ ts2 ++ "]\n", " " ++ ts3 ++ "]", ?_⟩
  simp only [preprocessTransform, gpuTransform, postprocessTransform]
  apply strExt
  simp only [strData_append, List.append_assoc]
  rfl

/-- C2: each stage transform contains the input content unchanged as a
contiguous substring; only marker text is prepended or appended. -/
theorem C2_transforms_preserve_content (c ts dev : String) :
    (∃ p q, preprocessTransform ts c = p ++ c ++ q) ∧
    (∃ p q, gpuTransform dev ts c = p ++ c ++ q) ∧
    (∃ p q, postprocessTransform ts c = p ++ c ++ q) := by
  refine ⟨⟨"[Preprocessed at " ++ ts ++ "]\n", "", ?_⟩,
    ⟨"", "\n[GPU Processed with " ++ dev ++ " at " ++ ts ++ "]", ?_⟩,
    ⟨"", "\n[Postprocessed at " ++ ts ++ "]", ?_⟩⟩ <;>
    · apply strExt
      simp only [preprocessTransform, gpuTransform, postprocessTransform,
        strData_append, List.append_assoc, strData_empty, List.append_nil,
        List.nil_append]

/-! ## Directory and filesystem model

A directory listing (the `Path(dir).glob` call in the sources) is a list of
entries; an entry is a regular file (with its text content) or a
subdirectory.  The local filesystem maps directory paths to listings.
A directory that does not exist is a directory with an empty listing, which
matches `glob` yielding nothing for a missing directory.
-/

structure Entry where
  name : String
  isFile : Bool
  content : String
deriving DecidableEq

abbrev FS := String → List Entry

/-- Observable effects of a stage or harness run, in program order. -/
inductive Ev where
  | log (msg : String)
  | errlog (msg : String)
  | fileRead (path : String)
  | fileWrite (path : String)
  | s3ListReq (bucket pfx : String)
  | s3Download (bucket key : String)
  | s3Upload (bucket key : String)
  | httpPost (url : String)
  | sleep (seconds : Nat)
deriving DecidableEq

/-- Writing a file into a directory listing: overwrite an entry of the same
name if present (Python open-for-write semantics), otherwise add a new entry. -/
def writeEntry (es : List Entry) (name content : String) : List Entry :=
  if es.any (fun e => e.name == name) then
    es.map (fun e => if e.name == name then ⟨name, true, content⟩ else e)
  else es ++ [⟨name, true, content⟩]

/-- Writing a file at `dir/name` updates only the listing of `dir`. -/
def fsWrite (fs : FS) (dir name content : String) : FS :=
  fun d => if d = dir then writeEntry (fs d) name content else fs d

theorem fsWrite_frame (fs : FS) (dir name content d : String) (h : d ≠ dir) :
    fsWrite fs dir name content d = fs d := by
  simp [fsWrite, h]

/-! ## Stage file loops

Embedded from `preprocess_files` (preprocess.py lines 58-89),
`process_files` (process.py lines 52-86) and `postprocess_files`
(postprocess.py lines 48-79).  Each iterates over the input directory
listing, skips non-files, reads each regular file, applies the stage
transform with the current timestamp, and writes the result under the same
name in the output directory.  The `try` block of each source function can
only fail on real I/O errors, which the filesystem model does not produce,
so the embedded loops always report success; the returned tuple is
(updated filesystem, success flag, processed count, event trace). -/

def preprocessLoop (inDir outDir ts : String) : List Entry → FS → FS × Nat × List Ev
  | [], fs => (fs, 0, [])
  | e :: es, fs =>
    if e.isFile then
      let fs1 := fsWrite fs outDir e.name (preprocessTransform ts e.content)
      let r := preprocessLoop inDir outDir ts es fs1
      (r.1, r.2.1 + 1,
        Ev.log ("Processing " ++ inDir ++ "/" ++ e.name) ::
        Ev.fileRead (inDir ++ "/" ++ e.name) ::
        Ev.fileWrite (outDir ++ "/" ++ e.name) ::
        Ev.log ("Saved preprocessed file to " ++ outDir ++ "/" ++ e.name) :: r.2.2)
    else preprocessLoop inDir outDir ts es fs

def preprocess_files (fs : FS) (inDir outDir ts : String) :
    FS × Bool × Nat × List Ev :=
  let r := preprocessLoop inDir outDir ts (fs inDir) fs
  (r.1, true, r.2.1,
    r.2.2 ++ [Ev.log ("Preprocessed " ++ toString r.2.1 ++ " files")])

def gpuLoop (inDir outDir deviceName ts : String) :
    List Entry → FS → FS × Nat × List Ev
  | [], fs => (fs, 0, [])
  | e :: es, fs =>
    if e.isFile then
      let fs1 := fsWrite fs outDir e.name (gpuTransform deviceName ts e.content)
      let r := gpuLoop inDir outDir deviceName ts es fs1
      (r.1, r.2.1 + 1,
        Ev.log ("Processing " ++ inDir ++ "/" ++ e.name) ::
        Ev.fileRead (inDir ++ "/" ++ e.name) ::
        Ev.sleep 2 ::
        Ev.fileWrite (outDir ++ "/" ++ e.name) ::
        Ev.log ("Saved processed file to " ++ outDir ++ "/" ++ e.name) :: r.2.2)
    else gpuLoop inDir outDir deviceName ts es fs

def process_files (fs : FS) (inDir outDir deviceName ts : String) :
    FS × Bool × Nat × List Ev :=
  let r := gpuLoop inDir outDir deviceName ts (fs inDir) fs
  (r.1, true, r.2.1,
    r.2.2 ++ [Ev.log ("GPU processed " ++ toString r.2.1 ++ " files")])

def postprocessLoop (inDir outDir ts : String) : List Entry → FS → FS × Nat × List Ev
  | [], fs => (fs, 0, [])
  | e :: es, fs =>
    if e.isFile then
      let fs1 := fsWrite fs outDir e.name (postprocessTransform ts e.content)
      let r := postprocessLoop inDir outDir ts es fs1
      (r.1, r.2.1 + 1,
        Ev.log ("Post-processing " ++ inDir ++ "/" ++ e.name) ::
        Ev.fileRead (inDir ++ "/" ++ e.name) ::
        Ev.fileWrite (outDir ++ "/" ++ e.name) ::
        Ev.log ("Saved post-processed file to " ++ outDir ++ "/" ++ e.name) :: r.2.2)
    else postprocessLoop inDir outDir ts es fs

def postprocess_files (fs : FS) (inDir outDir ts : String) :
    FS × Bool × Nat × List Ev :=
  let r := postprocessLoop inDir outDir ts (fs inDir) fs
  (r.1, true, r.2.1,
    r.2.2 ++ [Ev.log ("Post-processed " ++ toString r.2.1 ++ " files")])

/-! Frame lemmas: each loop writes only into the output directory. -/

theorem preprocessLoop_frame (inDir outDir ts d : String) (h : d ≠ outDir) :
    ∀ (es : List Entry) (fs : FS), (preprocessLoop inDir outDir ts es fs).1 d = fs d := by
  intro es
  induction es with
  | nil => intro fs; rfl
  | cons e es ih =>
    intro fs
    by_cases hf : e.isFile
    · simp only [preprocessLoop, hf, if_true]
      rw [ih]
      exact fsWrite_frame _ _ _ _ _ h
    · simp only [preprocessLoop, hf, if_false]
      exact ih fs

theorem gpuLoop_frame (inDir outDir dev ts d : String) (h : d ≠ outDir) :
    ∀ (es : List Entry) (fs : FS), (gpuLoop inDir outDir dev ts es fs).1 d = fs d := by
  intro es
  induction es with
  | nil => intro fs; rfl
  | cons e es ih =>
    intro fs
    by_cases hf : e.isFile
    · simp only [gpuLoop, hf, if_true]
      rw [ih]
      exact fsWrite_frame _ _ _ _ _ h
    · simp only [gpuLoop, hf, if_false]
      exact ih fs

theorem postprocessLoop_frame (inDir outDir ts d : String) (h : d ≠ outDir) :
    ∀ (es : List Entry) (fs : FS), (postprocessLoop inDir outDir ts es fs).1 d = fs d := by
  intro es
  induction es with
  | nil => intro fs; rfl
  | cons e es ih =>
    intro fs
    by_cases hf : e.isFile
    · simp only [postprocessLoop, hf, if_true]
      rw [ih]
      exact fsWrite_frame _ _ _ _ _ h
    · simp only [postprocessLoop, hf, if_false]
      exact ih fs

/-! Zero-regular-file lemmas: a listing with no regular files is a no-op. -/

theorem preprocessLoop_no_files (inDir outDir ts : String) :
    ∀ (es : List Entry) (fs : FS), (∀ e ∈ es, e.isFile = false) →
      preprocessLoop inDir outDir ts es fs = (fs, 0, []) := by
  intro es
  induction es with
  | nil => intro fs _; rfl
  | cons e es ih =>
    intro fs h
    have he : e.isFile = false := h e (List.mem_cons_self e es)
    simp only [preprocessLoop, he, Bool.false_eq_true, if_false]
    exact ih fs fun x hx => h x (List.mem_cons_of_mem e hx)

theorem gpuLoop_no_files (inDir outDir dev ts : String) :
    ∀ (es : List Entry) (fs : FS), (∀ e ∈ es, e.isFile = false) →
      gpuLoop inDir outDir dev ts es fs = (fs, 0, []) := by
  intro es
  induction es with
  | nil => intro fs _; rfl
  | cons e es ih =>
    intro fs h
    have he : e.isFile = false := h e (List.mem_cons_self e es)
    simp only [gpuLoop, he, Bool.false_eq_true, if_false]
    exact ih fs fun x hx => h x (List.mem_cons_of_mem e hx)

theorem postprocessLoop_no_files (inDir outDir ts : String) :
    ∀ (es : List Entry) (fs : FS), (∀ e ∈ es, e.isFile = false) →
      postprocessLoop inDir outDir ts es fs = (fs, 0, []) := by
  intro es
  induction es with
  | nil => intro fs _; rfl
  | cons e es ih =>
    intro fs h
    have he : e.isFile = false := h e (List.mem_cons_self e es)
    simp only [postprocessLoop, he, Bool.false_eq_true, if_false]
    exact ih fs fun x hx => h x (List.mem_cons_of_mem e hx)

/-! ## World model and stage entry points -/

/-- The ambient state a stage process observes: environment variables, object
storage (keys listed per bucket and prefix, content per bucket and key), GPU
availability and device name, whether the body of `load_model` raises (its
`except` branch; in the shipped source the body is a sleep and two log calls),
and the timestamp `time.strftime` returns during the run. -/
structure World where
  env : String → Option String
  s3Keys : String → String → List String
  s3Content : String → String → String
  gpuAvailable : Bool
  gpuDeviceName : String
  loadModelRaises : Bool
  ts : String

/-- Python truthiness of an optional environment value, as used by
`if not all([...])` in the stage entry points: absent and empty string are
both falsy. -/
def truthy : Option String → Bool
  | none => false
  | some s => !(s == "")

/-- Outcome of a stage entry point: process exit code (0 on success, 1 on
`sys.exit(1)`), final filesystem, and event trace. -/
structure RunResult where
  exitCode : Nat
  fs : FS
  events : List Ev

/-- The endswith-slash test of the sources: the last character is a slash. -/
def endsWithSlash (s : String) : Bool :=
  s.data.getLast? == some '/'

/-- `os.path.basename`: the part of the key after the last slash. -/
def basename (key : String) : String :=
  (key.splitOn "/").getLastD ""

/-- `download_from_s3` (preprocess.py lines 28-56): list the bucket prefix;
an empty listing (no `Contents` key in the response) is a failure; otherwise
download every non-directory key into the local directory. -/
def downloadLoop (w : World) (bucket localDir : String) :
    List String → FS → FS × List Ev
  | [], fs => (fs, [])
  | k :: ks, fs =>
    if endsWithSlash k then downloadLoop w bucket localDir ks fs
    else
      let fs1 := fsWrite fs localDir (basename k) (w.s3Content bucket k)
      let r := downloadLoop w bucket localDir ks fs1
      (r.1,
        Ev.log ("Downloading " ++ k ++ " to " ++ localDir ++ "/" ++ basename k) ::
        Ev.s3Download bucket k ::
        Ev.fileWrite (localDir ++ "/" ++ basename k) :: r.2)

def download_from_s3 (w : World) (fs : FS) (bucket dir localDir : String) :
    Bool × FS × List Ev :=
  let keys := w.s3Keys bucket dir
  if keys.isEmpty then
    (false, fs,
      [Ev.s3ListReq bucket dir,
       Ev.errlog ("No files found in s3://" ++ bucket ++ "/" ++ dir)])
  else
    let r := downloadLoop w bucket localDir keys fs
    (true, r.1, Ev.s3ListReq bucket dir :: r.2)

/-- `upload_to_s3` (postprocess.py lines 28-46): upload every regular file of
the local directory under the output prefix; always succeeds in the model. -/
def uploadLoop (bucket outPfx : String) : List Entry → List Ev
  | [] => []
  | e :: es =>
    if e.isFile then
      Ev.log ("Uploading " ++ e.name ++ " to s3://" ++ bucket ++ "/" ++ outPfx
          ++ "/" ++ e.name) ::
        Ev.s3Upload bucket (outPfx ++ "/" ++ e.name) :: uploadLoop bucket outPfx es
    else uploadLoop bucket outPfx es

def upload_to_s3 (fs : FS) (localDir bucket outPfx : String) : Bool × List Ev :=
  (true, uploadLoop bucket outPfx (fs localDir))

/-- `main` of preprocess.py (lines 91-123): read `SOURCE_BUCKET` and
`INPUT_DIRECTORY`; if either is falsy, log the error and exit 1 before any
file or network access; otherwise download from S3 to `/tmp/input`, then run
the preprocess loop into `/efs/preprocessed`. -/
def preprocess_main (w : World) (fs : FS) : RunResult :=
  let sb := w.env "SOURCE_BUCKET"
  let idir := w.env "INPUT_DIRECTORY"
  if !(truthy sb && truthy idir) then
    ⟨1, fs, [Ev.errlog "Required environment variables are missing"]⟩
  else
    let dl := download_from_s3 w fs (sb.getD "") (idir.getD "") "/tmp/input"
    if !dl.1 then ⟨1, dl.2.1, dl.2.2⟩
    else
      let pr := preprocess_files dl.2.1 "/tmp/input" "/efs/preprocessed" w.ts
      if !pr.2.1 then ⟨1, pr.1, dl.2.2 ++ pr.2.2.2⟩
      else ⟨0, pr.1,
        dl.2.2 ++ pr.2.2.2 ++ [Ev.log "Preprocessing completed successfully"]⟩

/-- `setup_gpu` (process.py lines 19-33).  With no GPU available the source
executes `return False`, a bare boolean rather than a pair; `single` records
that shape, which the caller fails to unpack. -/
inductive SetupGpuResult where
  | single (b : Bool)
  | pair (ready : Bool) (deviceName : Option String)
deriving DecidableEq

def setup_gpu (w : World) : SetupGpuResult × List Ev :=
  if !w.gpuAvailable then
    (SetupGpuResult.single false, [Ev.errlog "No GPU available"])
  else
    (SetupGpuResult.pair true (some w.gpuDeviceName),
      [Ev.log ("Using GPU: " ++ w.gpuDeviceName)])

/-- `load_model` (process.py lines 35-50): logs, sleeps one second, and
returns `True`; the `False` branch is its `except` clause, reachable only if
the body raises (modelled by `World.loadModelRaises`). -/
def load_model (w : World) : Bool × List Ev :=
  if w.loadModelRaises then
    (false, [Ev.log "Loading model...", Ev.errlog "Error loading model"])
  else
    (true, [Ev.log "Loading model...", Ev.sleep 1, Ev.log "Model loaded successfully"])

/-- `main` of process.py (lines 88-114): GPU setup and model load gate the
file loop over `/efs/preprocessed` into `/efs/processed`.  When `setup_gpu`
returns a bare boolean, the tuple unpacking in `main` raises and the outer
`except` logs the failure and exits 1. -/
def gpu_main (w : World) (fs : FS) : RunResult :=
  let s := setup_gpu w
  match s.1 with
  | SetupGpuResult.single _ =>
    ⟨1, fs, s.2 ++ [Ev.errlog "GPU processing failed: cannot unpack non-iterable bool object"]⟩
  | SetupGpuResult.pair ready dev =>
    if !ready then ⟨1, fs, s.2⟩
    else
      let lm := load_model w
      if !lm.1 then ⟨1, fs, s.2 ++ lm.2⟩
      else
        let pr := process_files fs "/efs/preprocessed" "/efs/processed" (dev.getD "None") w.ts
        if !pr.2.1 then ⟨1, pr.1, s.2 ++ lm.2 ++ pr.2.2.2⟩
        else ⟨0, pr.1,
          s.2 ++ lm.2 ++ pr.2.2.2 ++ [Ev.log "GPU processing completed successfully"]⟩

/-- `main` of postprocess.py (lines 81-113): read `OUTPUT_BUCKET` and
`OUTPUT_PREFIX`; if either is falsy, log the error and exit 1 before any file
or network access; otherwise run the postprocess loop from `/efs/processed`
into `/tmp/output` and upload the results. -/
def postprocess_main (w : World) (fs : FS) : RunResult :=
  let ob := w.env "OUTPUT_BUCKET"
  let op := w.env "OUTPUT_PREFIX"
  if !(truthy ob && truthy op) then
    ⟨1, fs, [Ev.errlog "Required environment variables are missing"]⟩
  else
    let pr := postprocess_files fs "/efs/processed" "/tmp/output" w.ts
    if !pr.2.1 then ⟨1, pr.1, pr.2.2.2⟩
    else
      let up := upload_to_s3 pr.1 "/tmp/output" (ob.getD "") (op.getD "")
      if !up.1 then ⟨1, pr.1, pr.2.2.2 ++ up.2⟩
      else ⟨0, pr.1,
        pr.2.2.2 ++ up.2 ++ [Ev.log "Post-processing completed successfully"]⟩

/-! ## Test harness (test_pipeline.py) -/

/-- Observed outcome of the single `requests.post` call in
`trigger_processing`: a transport failure, or a response with an HTTP status,
a flag for whether the body parses as JSON, and the parsed JSON object as a
flat field map. -/
inductive HttpOutcome where
  | networkError
  | response (status : Nat) (jsonOk : Bool) (fields : List (String × String))
deriving DecidableEq

/-- Python `dict.get`: the value of the field, or `None` when absent. -/
def jsonGet (fields : List (String × String)) (k : String) : Option String :=
  (fields.find? (fun p => p.1 == k)).map (fun p => p.2)

/-- What `trigger_processing` does for the caller: `sys.exit(1)` or a normal
return carrying the `executionArn` field of the response JSON. -/
inductive TriggerResult where
  | exited (code : Nat)
  | returned (executionArn : Option String)
deriving DecidableEq

/-- `trigger_processing` (test_pipeline.py lines 41-62): one POST to the
trigger endpoint; `raise_for_status` raises exactly for statuses in
400..599, and a body that fails to parse as JSON raises a
`RequestException` subclass; both land in the `except` branch, which exits 1.
Otherwise the function returns the `executionArn` field, `None` when the
field is absent. -/
def trigger_processing (apiUrl dir : String) (out : HttpOutcome) :
    TriggerResult × List Ev :=
  let pre := Ev.log ("Triggering processing for directory: " ++ dir)
  match out with
  | HttpOutcome.networkError =>
    (TriggerResult.exited 1,
      [pre, Ev.httpPost apiUrl, Ev.log "Error triggering processing"])
  | HttpOutcome.response status jsonOk fields =>
    if 400 ≤ status ∧ status < 600 then
      (TriggerResult.exited 1,
        [pre, Ev.httpPost apiUrl, Ev.log "Error triggering processing"])
    else if !jsonOk then
      (TriggerResult.exited 1,
        [pre, Ev.httpPost apiUrl, Ev.log "Error triggering processing"])
    else
      (TriggerResult.returned (jsonGet fields "executionArn"),
        [pre, Ev.httpPost apiUrl, Ev.log ("Response status: " ++ toString status)])

def isHttpPost : Ev → Bool
  | Ev.httpPost _ => true
  | _ => false

/-- Non-directory keys of a listing, as in
the list comprehension over `Contents` that drops keys ending in a slash. -/
def countNonDir (keys : List String) : Nat :=
  (keys.filter (fun k => !(endsWithSlash k))).length

/-- One poll iteration of `wait_for_results` (test_pipeline.py lines 64-90).
`listing t` is what `list_objects_v2` returns at elapsed time `t`; an empty
list models a response without a `Contents` key, in which case the success
check is skipped.  The loop runs while the elapsed time is below the
timeout, sleeping 10 seconds after each unsuccessful check; listing and
checking take no model time.  `k` counts completed sleeps, so the elapsed
time at poll `k` is `10 * k`; the result pairs the returned boolean with the
elapsed time at return.  The fuel argument only guarantees termination and
is never exhausted when it starts at `timeout + 1`. -/
def wfrAux (listing : Nat → List String) (numFiles timeout : Nat) :
    Nat → Nat → Bool × Nat
  | k, 0 => (false, 10 * k)
  | k, fuel + 1 =>
    if 10 * k < timeout then
      if listing (10 * k) ≠ [] ∧ numFiles ≤ countNonDir (listing (10 * k)) then
        (true, 10 * k)
      else wfrAux listing numFiles timeout (k + 1) fuel
    else (false, 10 * k)

def wait_for_results (listing : Nat → List String) (numFiles timeout : Nat) :
    Bool × Nat :=
  wfrAux listing numFiles timeout 0 (timeout + 1)

/-- The three-marker membership check of `verify_results`
(test_pipeline.py line 121). -/
def hasAllMarkers (content : String) : Bool :=
  decide (("[Preprocessed at".data : List Char) <:+: content.data) &&
  decide (("[GPU Processed with".data : List Char) <:+: content.data) &&
  decide (("[Postprocessed at".data : List Char) <:+: content.data)

/-- The download-and-check loop of `verify_results` (test_pipeline.py lines
105-124): directory keys are skipped; each other key is downloaded and
checked; the first file missing a marker returns `False` immediately.
Returns the verdict and the keys downloaded, in order. -/
def verifyLoop (content : String → String) : List String → Bool × List String
  | [] => (true, [])
  | k :: ks =>
    if endsWithSlash k then verifyLoop content ks
    else if hasAllMarkers (content k) then
      let r := verifyLoop content ks
      (r.1, k :: r.2)
    else (false, [k])

/-- `verify_results` (test_pipeline.py lines 92-128): an empty listing
(no `Contents` key in the response) fails with a no-files message;
otherwise run the download-and-check loop. -/
def verify_results (listing : List String) (content : String → String) :
    Bool × List String :=
  if listing.isEmpty then (false, [])
  else verifyLoop content listing

/-! ## Polling loop lemmas -/

theorem wfrAux_fail (listing : Nat → List String) (nf timeout : Nat) :
    ∀ (fuel k : Nat),
      (∀ j, k ≤ j → 10 * j < timeout → countNonDir (listing (10 * j)) < nf) →
      10 * k < timeout + 10 → timeout + 10 ≤ 10 * k + 10 * fuel →
      ∃ e, wfrAux listing nf timeout k fuel = (false, e) ∧
        timeout ≤ e ∧ e < timeout + 10 := by
  intro fuel
  induction fuel with
  | zero => intro k _ hk hfuel; exact absurd hfuel (by omega)
  | succ fuel ih =>
    intro k hbad hk hfuel
    by_cases hlt : 10 * k < timeout
    · have hcount := hbad k le_rfl hlt
      have hcond : ¬(listing (10 * k) ≠ [] ∧ nf ≤ countNonDir (listing (10 * k))) := by
        intro hc
        exact absurd hc.2 (by omega)
      simp only [wfrAux]
      rw [if_pos hlt, if_neg hcond]
      exact ih (k + 1) (fun j hj hj2 => hbad j (by omega) hj2) (by omega) (by omega)
    · refine ⟨10 * k, ?_, by omega, by omega⟩
      simp only [wfrAux]
      rw [if_neg hlt]

theorem wfrAux_succ (listing : Nat → List String) (nf timeout : Nat) (hnf : 1 ≤ nf) :
    ∀ (fuel k k2 : Nat), k ≤ k2 → k2 < k + fuel → 10 * k2 < timeout →
      nf ≤ countNonDir (listing (10 * k2)) →
      (∀ j, k ≤ j → j < k2 → countNonDir (listing (10 * j)) < nf) →
      wfrAux listing nf timeout k fuel = (true, 10 * k2) := by
  intro fuel
  induction fuel with
  | zero => intro k k2 hk hfuel _ _ _; exact absurd hfuel (by omega)
  | succ fuel ih =>
    intro k k2 hk hfuel hto hgood hmin
    rcases Nat.eq_or_lt_of_le hk with heq | hlt
    · subst heq
      have hne : listing (10 * k) ≠ [] := by
        intro hnil
        have h0 : countNonDir (listing (10 * k)) = 0 := by rw [hnil]; rfl
        omega
      simp only [wfrAux]
      rw [if_pos hto, if_pos (And.intro hne hgood)]
    · have hlt10 : 10 * k < timeout := by omega
      have hbadk := hmin k le_rfl hlt
      have hcond : ¬(listing (10 * k) ≠ [] ∧ nf ≤ countNonDir (listing (10 * k))) := by
        intro hc
        exact absurd hc.2 (by omega)
      simp only [wfrAux]
      rw [if_pos hlt10, if_neg hcond]
      exact ih (k + 1) k2 (by omega) (by omega) hto hgood
        (fun j hj hj2 => hmin j (by omega) hj2)

/-- C3 (amended): for an expected count of at least one file, the polling
loop returns success at the first poll (at elapsed times 0, 10, 20, ...,
strictly below the timeout) whose listing holds at least `numFiles`
non-directory keys; and if no poll below the timeout ever does, it returns
failure at an elapsed time in `[timeout, timeout + 10)` — within one poll
interval of the configured timeout, not earlier and not indefinitely.  The
`1 ≤ numFiles` bound is forced: with `numFiles = 0` and an empty listing the
source skips the success check (guarded by the `Contents` key) and times out. -/
theorem C3_wait_for_results_polling (listing : Nat → List String)
    (numFiles timeout : Nat) (hnf : 1 ≤ numFiles) :
    ((∀ j, 10 * j < timeout → countNonDir (listing (10 * j)) < numFiles) →
      ∃ e, wait_for_results listing numFiles timeout = (false, e) ∧
        timeout ≤ e ∧ e < timeout + 10) ∧
    (∀ k, 10 * k < timeout → numFiles ≤ countNonDir (listing (10 * k)) →
      (∀ j, j < k → countNonDir (listing (10 * j)) < numFiles) →
      wait_for_results listing numFiles timeout = (true, 10 * k)) := by
  constructor
  · intro hbad
    exact wfrAux_fail listing numFiles timeout (timeout + 1) 0
      (fun j _ hj2 => hbad j hj2) (by omega) (by omega)
  · intro k hk hgood hmin
    exact wfrAux_succ listing numFiles timeout hnf (timeout + 1) 0 k (by omega)
      (by omega) hk hgood (fun j _ hj2 => hmin j hj2)

/-- C3 counterexample: with `num_files = 0` and a permanently empty listing
every listing trivially holds at least `num_files` non-directory keys, yet the
loop never returns success: the empty listing (no `Contents` key) skips the
success check, and the call with timeout 5 returns failure at elapsed time
10. -/
theorem C3_counterexample : wait_for_results (fun _ => []) 0 5 = (false, 10) := by
  decide

theorem C3_wait_for_results_polling_witness :
    wait_for_results (fun _ => ["a"]) 1 25 = (true, 0) :=
  (C3_wait_for_results_polling (fun _ => ["a"]) 1 25 (by decide)).2 0 (by decide)
    (by decide) (fun j hj => absurd hj (Nat.not_lt_zero j))

/-! ## Verification lemmas -/

theorem verifyLoop_true_iff (content : String → String) :
    ∀ l : List String, (verifyLoop content l).1 = true ↔
      ∀ k ∈ l, endsWithSlash k = false → hasAllMarkers (content k) = true := by
  intro l
  induction l with
  | nil => simp [verifyLoop]
  | cons k ks ih =>
    by_cases hd : endsWithSlash k = true
    · simp only [verifyLoop]
      rw [if_pos hd, ih]
      constructor
      · intro h x hx hxd
        rcases List.mem_cons.mp hx with rfl | hx2
        · rw [hd] at hxd
          exact absurd hxd (by simp)
        · exact h x hx2 hxd
      · intro h x hx hxd
        exact h x (List.mem_cons_of_mem k hx) hxd
    · have hd2 : endsWithSlash k = false := by
        cases hke : endsWithSlash k
        · rfl
        · exact absurd hke hd
      by_cases hm : hasAllMarkers (content k) = true
      · simp only [verifyLoop]
        rw [if_neg hd, if_pos hm]
        constructor
        · intro h x hx hxd
          rcases List.mem_cons.mp hx with rfl | hx2
          · exact hm
          · exact (ih.mp h) x hx2 hxd
        · intro h
          exact ih.mpr (fun x hx hxd => h x (List.mem_cons_of_mem k hx) hxd)
      · simp only [verifyLoop]
        rw [if_neg hd, if_neg hm]
        constructor
        · intro h
          exact absurd h (by simp)
        · intro h
          exact absurd (h k (List.mem_cons_self k ks) hd2) hm

theorem verifyLoop_failfast (content : String → String) :
    ∀ (g : List String) (b : String) (r : List String),
      (∀ k ∈ g, endsWithSlash k = false → hasAllMarkers (content k) = true) →
      endsWithSlash b = false → hasAllMarkers (content b) = false →
      verifyLoop content (g ++ b :: r) =
        (false, (g.filter (fun k => !(endsWithSlash k))) ++ [b]) := by
  intro g
  induction g with
  | nil =>
    intro b r _ hb hm
    simp only [List.nil_append, verifyLoop, List.filter_nil]
    rw [if_neg (by rw [hb]; simp), if_neg (by rw [hm]; simp)]
  | cons k g ih =>
    intro b r hg hb hm
    have htail : ∀ x ∈ g, endsWithSlash x = false → hasAllMarkers (content x) = true :=
      fun x hx => hg x (List.mem_cons_of_mem k hx)
    by_cases hd : endsWithSlash k = true
    · rw [List.cons_append]
      simp only [verifyLoop]
      rw [if_pos hd, ih b r htail hb hm]
      simp [List.filter_cons, hd]
    · have hd2 : endsWithSlash k = false := by
        cases hke : endsWithSlash k
        · rfl
        · exact absurd hke hd
      have hgk : hasAllMarkers (content k) = true := hg k (List.mem_cons_self k g) hd2
      rw [List.cons_append]
      simp only [verifyLoop]
      rw [if_neg hd, if_pos hgk, ih b r htail hb hm]
      simp [List.filter_cons, hd2]

/-- C5 (amended): `verify_results` succeeds iff the listing is non-empty and
the downloaded content of every listed non-directory key has all three marker
substrings; with an empty listing it fails (`No processed files found`) even
though the marker condition over the zero downloaded files holds vacuously.
The second conjunct is the fail-fast behavior: when the listing splits as
good keys, then a first bad non-directory key `b`, then anything, the run
fails and the downloads are exactly the good non-directory keys followed by
`b` — nothing after the first bad file is downloaded or checked. -/
theorem C5_verify_results_markers (listing : List String) (content : String → String) :
    ((verify_results listing content).1 = true ↔
      (listing ≠ [] ∧
        ∀ k ∈ listing, endsWithSlash k = false → hasAllMarkers (content k) = true)) ∧
    (∀ (g : List String) (b : String) (r : List String),
      listing = g ++ b :: r →
      (∀ k ∈ g, endsWithSlash k = false → hasAllMarkers (content k) = true) →
      endsWithSlash b = false → hasAllMarkers (content b) = false →
      verify_results listing content =
        (false, (g.filter (fun k => !(endsWithSlash k))) ++ [b])) := by
  constructor
  · by_cases hl : listing = []
    · subst hl
      simp [verify_results]
    · have hne : listing.isEmpty = false := by
        cases listing
        · exact absurd rfl hl
        · rfl
      simp only [verify_results, hne, Bool.false_eq_true, if_false]
      rw [verifyLoop_true_iff]
      constructor
      · intro h
        exact ⟨hl, h⟩
      · intro h
        exact h.2
  · intro g b r hsplit hg hb hm
    subst hsplit
    have hne : (g ++ b :: r).isEmpty = false := by
      cases g
      · rfl
      · rfl
    simp only [verify_results, hne, Bool.false_eq_true, if_false]
    exact verifyLoop_failfast content g b r hg hb hm

/-- C5 counterexample: an empty listing makes the claimed condition ("every
downloaded non-directory result has all three markers") hold vacuously, yet
`verify_results` returns failure. -/
theorem C5_counterexample : verify_results [] (fun _ => "") = (false, []) := by
  decide

theorem C5_verify_results_markers_witness :
    verify_results ["x"] (fun _ => "") = (false, ["x"]) :=
  (C5_verify_results_markers ["x"] (fun _ => "")).2 [] "x" [] rfl
    (fun k hk => absurd hk (List.not_mem_nil k)) (by decide) (by decide)

/-! ## Trigger step -/

/-- C8 (amended): `trigger_processing` sends exactly one POST request in
every outcome, and a network error, an HTTP status in 400..599, or a body
that fails to decode as JSON each causes an immediate `sys.exit(1)` with no
retry.  A decodable response outside 400..599 is not a failure even when the
`executionArn` field is absent: the function returns the field lookup, which
is `None` in that case, and the run continues. -/
theorem C8_trigger_single_post_failfast (apiUrl dir : String) (out : HttpOutcome) :
    ((trigger_processing apiUrl dir out).2.countP (fun e => isHttpPost e)) = 1 ∧
    (out = HttpOutcome.networkError →
      (trigger_processing apiUrl dir out).1 = TriggerResult.exited 1) ∧
    (∀ s j f, out = HttpOutcome.response s j f → 400 ≤ s → s < 600 →
      (trigger_processing apiUrl dir out).1 = TriggerResult.exited 1) ∧
    (∀ s f, out = HttpOutcome.response s false f →
      (trigger_processing apiUrl dir out).1 = TriggerResult.exited 1) ∧
    (∀ s f, out = HttpOutcome.response s true f → ¬(400 ≤ s ∧ s < 600) →
      (trigger_processing apiUrl dir out).1 =
        TriggerResult.returned (jsonGet f "executionArn")) := by
  refine ⟨?_, ?_, ?_, ?_, ?_⟩
  · cases out with
    | networkError => simp [trigger_processing, isHttpPost]
    | response s j f =>
      by_cases h4 : 400 ≤ s ∧ s < 600
      · simp [trigger_processing, h4, isHttpPost]
      · cases j <;> simp [trigger_processing, h4, isHttpPost]
  · intro h
    subst h
    rfl
  · intro s j f h h4 h6
    subst h
    simp [trigger_processing, And.intro h4 h6]
  · intro s f h
    subst h
    by_cases h4 : 400 ≤ s ∧ s < 600 <;> simp [trigger_processing, h4]
  · intro s f h h4
    subst h
    simp [trigger_processing, h4]

/-- C8 counterexample: a 200 response with well-formed JSON that lacks the
`executionArn` field is not treated as a failure — `trigger_processing`
returns normally (carrying `None`) rather than exiting. -/
theorem C8_counterexample :
    (trigger_processing "u" "d"
        (HttpOutcome.response 200 true [("status", "processing")])).1 =
      TriggerResult.returned none ∧
    TriggerResult.returned none ≠ TriggerResult.exited 1 := by
  decide

theorem C8_trigger_single_post_failfast_witness :
    (trigger_processing "u" "d" HttpOutcome.networkError).1 = TriggerResult.exited 1 :=
  (C8_trigger_single_post_failfast "u" "d" HttpOutcome.networkError).2.1 rfl

/-! ## Shared concrete fixtures for witnesses -/

def emptyFS : FS := fun _ => []

def noGpuWorld : World :=
  ⟨fun _ => none, fun _ _ => [], fun _ _ => "", false, "", false, "ts"⟩

def emptyStrEnvWorld : World :=
  ⟨fun _ => some "", fun _ _ => [], fun _ _ => "", false, "", false, "ts"⟩

/-! ## Claims about the stage entry points -/

/-- C4: for each boundary stage, if a required environment variable is
absent the process logs the configuration error and exits with status 1, its
whole observable behavior being that single error log: the filesystem is
untouched and no file is read or written before exiting. -/
theorem C4_missing_env_fails_fast (w w2 : World) (fs fs2 : FS)
    (h1 : w.env "SOURCE_BUCKET" = none ∨ w.env "INPUT_DIRECTORY" = none)
    (h2 : w2.env "OUTPUT_BUCKET" = none ∨ w2.env "OUTPUT_PREFIX" = none) :
    preprocess_main w fs =
      ⟨1, fs, [Ev.errlog "Required environment variables are missing"]⟩ ∧
    postprocess_main w2 fs2 =
      ⟨1, fs2, [Ev.errlog "Required environment variables are missing"]⟩ ∧
    (∀ p, Ev.fileRead p ∉ (preprocess_main w fs).events) ∧
    (∀ p, Ev.fileWrite p ∉ (preprocess_main w fs).events) ∧
    (∀ p, Ev.fileRead p ∉ (postprocess_main w2 fs2).events) ∧
    (∀ p, Ev.fileWrite p ∉ (postprocess_main w2 fs2).events) := by
  have e1 : preprocess_main w fs =
      ⟨1, fs, [Ev.errlog "Required environment variables are missing"]⟩ := by
    rcases h1 with h | h <;> simp [preprocess_main, h, truthy]
  have e2 : postprocess_main w2 fs2 =
      ⟨1, fs2, [Ev.errlog "Required environment variables are missing"]⟩ := by
    rcases h2 with h | h <;> simp [postprocess_main, h, truthy]
  refine ⟨e1, e2, ?_, ?_, ?_, ?_⟩ <;> intro p
  all_goals first
  | (rw [e1]; simp)
  | (rw [e2]; simp)

/-- C10: a required environment variable set to the empty string behaves
exactly like an absent one, because the check tests Python truthiness of the
values: both boundary stages exit with status 1 before any I/O, with the
same result as in the absent case. -/
theorem C10_empty_env_equals_missing (w w2 : World) (fs fs2 : FS)
    (h1 : w.env "SOURCE_BUCKET" = some "" ∨ w.env "INPUT_DIRECTORY" = some "")
    (h2 : w2.env "OUTPUT_BUCKET" = some "" ∨ w2.env "OUTPUT_PREFIX" = some "") :
    truthy (some "") = truthy none ∧
    preprocess_main w fs =
      ⟨1, fs, [Ev.errlog "Required environment variables are missing"]⟩ ∧
    postprocess_main w2 fs2 =
      ⟨1, fs2, [Ev.errlog "Required environment variables are missing"]⟩ ∧
    (∀ p, Ev.fileRead p ∉ (preprocess_main w fs).events) ∧
    (∀ p, Ev.fileWrite p ∉ (preprocess_main w fs).events) ∧
    (∀ p, Ev.fileRead p ∉ (postprocess_main w2 fs2).events) ∧
    (∀ p, Ev.fileWrite p ∉ (postprocess_main w2 fs2).events) := by
  have e1 : preprocess_main w fs =
      ⟨1, fs, [Ev.errlog "Required environment variables are missing"]⟩ := by
    rcases h1 with h | h <;> simp [preprocess_main, h, truthy]
  have e2 : postprocess_main w2 fs2 =
      ⟨1, fs2, [Ev.errlog "Required environment variables are missing"]⟩ := by
    rcases h2 with h | h <;> simp [postprocess_main, h, truthy]
  refine ⟨rfl, e1, e2, ?_, ?_, ?_, ?_⟩ <;> intro p
  all_goals first
  | (rw [e1]; simp)
  | (rw [e2]; simp)

/-- C7: GPU setup and model load gate the GPU file loop: if the GPU is
unavailable or the model load raises, the process exits with status 1, the
filesystem is untouched, and no file is read or written. -/
theorem C7_gpu_setup_and_model_gate_loop (w : World) (fs : FS)
    (h : w.gpuAvailable = false ∨ w.loadModelRaises = true) :
    (gpu_main w fs).exitCode = 1 ∧ (gpu_main w fs).fs = fs ∧
    (∀ p, Ev.fileRead p ∉ (gpu_main w fs).events) ∧
    (∀ p, Ev.fileWrite p ∉ (gpu_main w fs).events) := by
  rcases h with h | h
  · simp [gpu_main, setup_gpu, h]
  · cases hg : w.gpuAvailable
    · simp [gpu_main, setup_gpu, hg]
    · simp [gpu_main, setup_gpu, load_model, hg, h]

/-- C6: a stage file loop run on an input directory with zero regular files
(including a non-existent directory, whose listing is empty) is a no-op that
reports success, a processed count of 0 and the corresponding count log; and
the postprocess entry point, whose loop input `/efs/processed` has zero
regular files, exits with status 0 given its required environment. -/
theorem C6_empty_input_succeeds (fs : FS) (inDir outDir ts dev : String)
    (h : ∀ e ∈ fs inDir, e.isFile = false) :
    preprocess_files fs inDir outDir ts =
      (fs, true, 0, [Ev.log "Preprocessed 0 files"]) ∧
    process_files fs inDir outDir dev ts =
      (fs, true, 0, [Ev.log "GPU processed 0 files"]) ∧
    postprocess_files fs inDir outDir ts =
      (fs, true, 0, [Ev.log "Post-processed 0 files"]) ∧
    (∀ (w : World) (fs2 : FS),
      truthy (w.env "OUTPUT_BUCKET") = true → truthy (w.env "OUTPUT_PREFIX") = true →
      (∀ e ∈ fs2 "/efs/processed", e.isFile = false) →
      (postprocess_main w fs2).exitCode = 0) := by
  have hs1 : ("Preprocessed " ++ toString (0 : Nat) ++ " files") = "Preprocessed 0 files" := by
    decide
  have hs2 : ("GPU processed " ++ toString (0 : Nat) ++ " files") = "GPU processed 0 files" := by
    decide
  have hs3 : ("Post-processed " ++ toString (0 : Nat) ++ " files") = "Post-processed 0 files" := by
    decide
  refine ⟨?_, ?_, ?_, ?_⟩
  · simp only [preprocess_files]
    rw [preprocessLoop_no_files inDir outDir ts (fs inDir) fs h]
    simp [hs1]
  · simp only [process_files]
    rw [gpuLoop_no_files inDir outDir dev ts (fs inDir) fs h]
    simp [hs2]
  · simp only [postprocess_files]
    rw [postprocessLoop_no_files inDir outDir ts (fs inDir) fs h]
    simp [hs3]
  · intro w fs2 h1 h2 h3
    simp only [postprocess_main, h1, h2, Bool.and_self, Bool.not_true,
      Bool.false_eq_true, if_false, postprocess_files, upload_to_s3]

/-- C9: each stage file loop only creates or overwrites files inside its
output directory: the listing of every other directory — in particular the
input directory, which is always distinct from the output directory in the
stage entry points — is left unmodified. -/
theorem C9_stage_loops_only_write_output (fs : FS) (inDir outDir ts dev d : String)
    (h : d ≠ outDir) :
    (preprocess_files fs inDir outDir ts).1 d = fs d ∧
    (process_files fs inDir outDir dev ts).1 d = fs d ∧
    (postprocess_files fs inDir outDir ts).1 d = fs d :=
  ⟨preprocessLoop_frame inDir outDir ts d h (fs inDir) fs,
   gpuLoop_frame inDir outDir dev ts d h (fs inDir) fs,
   postprocessLoop_frame inDir outDir ts d h (fs inDir) fs⟩

/-! ## Witnesses for the hypothesis-bearing claim theorems -/

theorem C4_missing_env_fails_fast_witness :
    preprocess_main noGpuWorld emptyFS =
      ⟨1, emptyFS, [Ev.errlog "Required environment variables are missing"]⟩ ∧
    postprocess_main noGpuWorld emptyFS =
      ⟨1, emptyFS, [Ev.errlog "Required environment variables are missing"]⟩ :=
  ⟨(C4_missing_env_fails_fast noGpuWorld noGpuWorld emptyFS emptyFS
      (Or.inl rfl) (Or.inl rfl)).1,
   (C4_missing_env_fails_fast noGpuWorld noGpuWorld emptyFS emptyFS
      (Or.inl rfl) (Or.inl rfl)).2.1⟩

theorem C10_empty_env_equals_missing_witness :
    preprocess_main emptyStrEnvWorld emptyFS =
      ⟨1, emptyFS, [Ev.errlog "Required environment variables are missing"]⟩ ∧
    postprocess_main emptyStrEnvWorld emptyFS =
      ⟨1, emptyFS, [Ev.errlog "Required environment variables are missing"]⟩ :=
  ⟨(C10_empty_env_equals_missing emptyStrEnvWorld emptyStrEnvWorld emptyFS emptyFS
      (Or.inl rfl) (Or.inl rfl)).2.1,
   (C10_empty_env_equals_missing emptyStrEnvWorld emptyStrEnvWorld emptyFS emptyFS
      (Or.inl rfl) (Or.inl rfl)).2.2.1⟩

theorem C7_gpu_setup_and_model_gate_loop_witness :
    (gpu_main noGpuWorld emptyFS).exitCode = 1 ∧ (gpu_main noGpuWorld emptyFS).fs = emptyFS :=
  ⟨(C7_gpu_setup_and_model_gate_loop noGpuWorld emptyFS (Or.inl rfl)).1,
   (C7_gpu_setup_and_model_gate_loop noGpuWorld emptyFS (Or.inl rfl)).2.1⟩

theorem C6_empty_input_succeeds_witness :
    preprocess_files emptyFS "indir" "outdir" "ts" =
      (emptyFS, true, 0, [Ev.log "Preprocessed 0 files"]) :=
  (C6_empty_input_succeeds emptyFS "indir" "outdir" "ts" "dev"
    (fun e he => absurd he (List.not_mem_nil e))).1

theorem C9_stage_loops_only_write_output_witness :
    ("indir" : String) ≠ "outdir" ∧
    (preprocess_files emptyFS "indir" "outdir" "ts").1 "indir" = emptyFS "indir" :=
  ⟨by decide,
   (C9_stage_loops_only_write_output emptyFS "indir" "outdir" "ts" "dev" "indir"
      (by decide)).1⟩

end Pipeline
